import Mathlib

/-!
Verification of the circuit-breaker package (`types.go`) and of the breaker
state machine its specification describes.

Go machine integers are embedded as `Nat` with explicit reduction modulo
`2^32` where the source type is `uint32`; `time.Duration` (an `int64`
nanosecond count) is embedded as `Int`; a Go `error` value is embedded as
`Option String` (`none` is the nil error); a nil-able Go function field is
embedded as an `Option` of a function type.
-/

/-- Modulus of Go's `uint32` arithmetic. -/
def u32Mod : Nat := 4294967296

/-- One second in nanoseconds, `time.Second`. -/
def timeSecond : Int := 1000000000

/-- Go `type State int`: the state enumeration is an integer type, so values
outside the three named constants exist. -/
abbrev State := Int

/-- `StateClosed State = iota` (0). -/
def StateClosed : State := 0

/-- `StateHalfOpen` (1). -/
def StateHalfOpen : State := 1

/-- `StateOpen` (2). -/
def StateOpen : State := 2

/-- `State.String`: switch over the three named constants with a
`fmt.Sprintf("unknown state: %d", s)` default. -/
def stateString (s : State) : String :=
  if s = StateClosed then ("closed")
  else if s = StateHalfOpen then ("half-open")
  else if s = StateOpen then ("open")
  else ("unknown state: " ++ toString s)

/-- The `counts` struct: five `uint32` fields. -/
structure counts where
  requests : Nat
  totalSuccesses : Nat
  totalFailures : Nat
  consecutiveSuccesses : Nat
  consecutiveFailures : Nat
deriving DecidableEq, Repr

/-- The all-zero counters, the zero value of the Go struct. -/
def counts.zero : counts := ⟨0, 0, 0, 0, 0⟩

/-- `counts.onRequest`: `c.requests++` (uint32 increment). -/
def counts.onRequest (c : counts) : counts :=
  { c with requests := (c.requests + 1) % u32Mod }

/-- `counts.onSuccess`: increment `totalSuccesses` and `consecutiveSuccesses`,
zero `consecutiveFailures`. -/
def counts.onSuccess (c : counts) : counts :=
  { c with
    totalSuccesses := (c.totalSuccesses + 1) % u32Mod
    consecutiveSuccesses := (c.consecutiveSuccesses + 1) % u32Mod
    consecutiveFailures := 0 }

/-- `counts.onFailure`: increment `totalFailures` and `consecutiveFailures`,
zero `consecutiveSuccesses`. -/
def counts.onFailure (c : counts) : counts :=
  { c with
    totalFailures := (c.totalFailures + 1) % u32Mod
    consecutiveFailures := (c.consecutiveFailures + 1) % u32Mod
    consecutiveSuccesses := 0 }

/-- `counts.reset`: set every field to 0. -/
def counts.reset (_c : counts) : counts := counts.zero

/-- The `settings` struct. `onStateChange` may be nil in Go, hence `Option`. -/
structure settings where
  maxHalfOpenRequests : Nat
  closedResetInterval : Int
  openTimeOut : Int
  readyToTrip : counts → Bool
  onStateChange : Option (String → State → State → Unit)
  isSuccessful : Option String → Bool

/-- An argument given to ozzo-validation's `validation.Field` inside
`ValidateStruct`, together with the `validation.Min` threshold attached to it.
The source passes `s.closedResetInterval` and `s.openTimeOut` by value, not as
`&s.closedResetInterval` / `&s.openTimeOut`, so the embedding records for each
field whether it was passed as a pointer. -/
inductive fieldArg where
  | byValue (v : Int) (minVal : Int)
  | byPointer (v : Int) (minVal : Int)

/-- Modelled from the spec and the documented behaviour of the external
dependency `github.com/go-ozzo/ozzo-validation/v4` (not under `src/`):
`validation.ValidateStruct` walks the field rules in order and, on the first
field argument that is not a pointer, returns at once the internal error
`field #i must be specified as a pointer`; a pointer field is checked against
its `validation.Min` rule. `none` means a nil (absent) error. -/
def validateFields : Nat → List fieldArg → Option String
  | _, [] => none
  | i, fieldArg.byValue _ _ :: _ =>
      some ("field #" ++ toString i ++ " must be specified as a pointer")
  | i, fieldArg.byPointer v m :: rest =>
      if v < m then some ("must be no less than " ++ toString m)
      else validateFields (i + 1) rest

/-- `settings.validate`: `validation.ValidateStruct(&s,
validation.Field(s.closedResetInterval, validation.Min(time.Duration(1))),
validation.Field(s.openTimeOut, validation.Min(time.Duration(1))))`.
Both fields are passed by value (no `&`), which the embedding records with
`fieldArg.byValue`. -/
def settings.validate (s : settings) : Option String :=
  validateFields 0
    [fieldArg.byValue s.closedResetInterval 1,
     fieldArg.byValue s.openTimeOut 1]

/-- `SettingsOption`: Go mutates the struct through a pointer; the embedding
uses a `settings → settings` function. -/
abbrev SettingsOption := settings → settings

/-- `WithMaxHalfOpenRequests`. -/
def WithMaxHalfOpenRequests (m : Nat) : SettingsOption :=
  fun s => { s with maxHalfOpenRequests := m }

/-- `WithClosedResetInterval`. -/
def WithClosedResetInterval (interval : Int) : SettingsOption :=
  fun s => { s with closedResetInterval := interval }

/-- `WithOpenTimeOut`. -/
def WithOpenTimeOut (timeout : Int) : SettingsOption :=
  fun s => { s with openTimeOut := timeout }

/-- `WithReadyToTrip`. -/
def WithReadyToTrip (fn : counts → Bool) : SettingsOption :=
  fun s => { s with readyToTrip := fn }

/-- `WithOnStateChange`. -/
def WithOnStateChange (fn : Option (String → State → State → Unit)) : SettingsOption :=
  fun s => { s with onStateChange := fn }

/-- `WithIsSuccessful`. -/
def WithIsSuccessful (fn : Option String → Bool) : SettingsOption :=
  fun s => { s with isSuccessful := fn }

/-- `defaultReadyToTrip`: `counts.consecutiveFailures > 5`. -/
def defaultReadyToTrip (c : counts) : Bool :=
  c.consecutiveFailures > 5

/-- `defaultIsSuccessful`: `err == nil`. -/
def defaultIsSuccessful (err : Option String) : Bool :=
  err.isNone

/-- `defaultSettings`. -/
def defaultSettings : settings :=
  { maxHalfOpenRequests := 10
    closedResetInterval := 5 * timeSecond
    openTimeOut := 10 * timeSecond
    readyToTrip := defaultReadyToTrip
    onStateChange := none
    isSuccessful := defaultIsSuccessful }

/-- Effective half-open probe budget. Modelled from the spec:
`maxHalfOpenRequests` is the "upper bound on calls admitted while probing
(0 is treated as exactly one)". -/
def effMax (p : settings) : Nat :=
  if p.maxHalfOpenRequests = 0 then 1 else p.maxHalfOpenRequests

/-- Modelled from the spec: the Breaker aggregate (its Gate code is not in
the sources). It owns a State, Counters and the expiry timestamp (an `Int`
nanosecond instant) marking when the current Closed-reset window or
Open-timeout window ends; the Policy is passed alongside. -/
structure breaker where
  st : State
  cnts : counts
  expiry : Int
deriving DecidableEq, Repr

/-- Modelled from the spec: a fresh breaker starts Closed with zero counters,
with the Closed-reset window ending `closedResetInterval` after creation. -/
def newBreaker (p : settings) (now : Int) : breaker :=
  { st := StateClosed, cnts := counts.zero, expiry := now + p.closedResetInterval }

/-- Modelled from the spec: the lazy periodic reset in Closed, evaluated at
each Admission/Record call: once wall-clock time passes `expiry`, counters
are reset and `expiry` extended, the state remaining Closed. -/
def closedLazyReset (p : settings) (now : Int) (b : breaker) : breaker :=
  if b.st = StateClosed ∧ b.expiry ≤ now then
    { b with cnts := b.cnts.reset, expiry := now + p.closedResetInterval }
  else b

/-- Modelled from the spec: in admission, an Open breaker whose timeout has
elapsed advances to HalfOpen with counters reset, a fresh probe budget
starting. -/
def openToHalfOpen (now : Int) (b1 : breaker) : breaker :=
  if b1.st = StateOpen ∧ b1.expiry ≤ now then
    { st := StateHalfOpen, cnts := b1.cnts.reset, expiry := b1.expiry }
  else b1

/-- Modelled from the spec: HalfOpen admission logic; admits only while the
requests already admitted in this probe window are below the effective
budget. Any state other than HalfOpen reaching this point rejects. -/
def admitHalfOpen (p : settings) (b2 : breaker) : Bool × breaker :=
  if b2.st = StateHalfOpen then
    if b2.cnts.requests < effMax p then
      (true, { b2 with cnts := b2.cnts.onRequest })
    else (false, b2)
  else (false, b2)

/-- Modelled from the spec: admission after the lazy Closed reset. Closed
always admits and counts the request; otherwise the Open timeout is checked
and HalfOpen admission logic runs. -/
def admitInner (p : settings) (now : Int) (b1 : breaker) : Bool × breaker :=
  if b1.st = StateClosed then
    (true, { b1 with cnts := b1.cnts.onRequest })
  else
    admitHalfOpen p (openToHalfOpen now b1)

/-- Modelled from the spec: Gate admission, the lazy Closed reset followed by
the state-dependent admission decision. -/
def gateAdmit (p : settings) (now : Int) (b : breaker) : Bool × breaker :=
  admitInner p now (closedLazyReset p now b)

/-- Modelled from the spec: outcome recording after the lazy Closed reset. A
success is tallied with `counts.onSuccess`; in HalfOpen, once the probe
budget has been fully consumed with every outcome successful the breaker
closes with counters reset. A failure is tallied with `counts.onFailure`; in
HalfOpen it reopens the breaker immediately (counters reset,
`expiry = now + openTimeOut`), and in Closed the breaker trips to Open when
`readyToTrip` holds on the updated counters. -/
def recordOutcome (p : settings) (now : Int) (success : Bool) (b1 : breaker) : breaker :=
  if success then
    if b1.st = StateHalfOpen ∧ effMax p ≤ (b1.cnts.onSuccess).consecutiveSuccesses then
      { st := StateClosed, cnts := (b1.cnts.onSuccess).reset,
        expiry := now + p.closedResetInterval }
    else { b1 with cnts := b1.cnts.onSuccess }
  else
    if b1.st = StateHalfOpen then
      { st := StateOpen, cnts := (b1.cnts.onFailure).reset, expiry := now + p.openTimeOut }
    else if b1.st = StateClosed ∧ p.readyToTrip (b1.cnts.onFailure) then
      { st := StateOpen, cnts := b1.cnts.onFailure, expiry := now + p.openTimeOut }
    else { b1 with cnts := b1.cnts.onFailure }

/-- Modelled from the spec: Gate outcome recording, the lazy Closed reset
followed by the outcome tally and its state transitions. -/
def gateRecord (p : settings) (now : Int) (success : Bool) (b : breaker) : breaker :=
  recordOutcome p now success (closedLazyReset p now b)

/-- One admitted call that fails: Admit followed by Record of a failure. -/
def failCall (p : settings) (now : Int) (b : breaker) : breaker :=
  gateRecord p now false (gateAdmit p now b).2

/-- A Gate operation, as linearized by the breaker's lock: an admission
attempt or an outcome recording, each carrying the wall-clock instant at
which it holds the lock. -/
inductive gateOp where
  | attemptAt (now : Int)
  | recordAt (now : Int) (success : Bool)

/-- Apply one linearized Gate operation. -/
def gateStep (p : settings) (b : breaker) (op : gateOp) : breaker :=
  match op with
  | gateOp.attemptAt now => (gateAdmit p now b).2
  | gateOp.recordAt now ok => gateRecord p now ok b

/-- Run a linearized sequence of Gate operations. -/
def gateRun (p : settings) (b : breaker) (l : List gateOp) : breaker :=
  l.foldl (gateStep p) b

/-- The four raw counter operations of the `counts` struct, for sequencing. -/
inductive countOp where
  | req
  | succ
  | fail
  | rst

/-- Apply one raw counter operation. -/
def countStep (c : counts) : countOp → counts
  | countOp.req => c.onRequest
  | countOp.succ => c.onSuccess
  | countOp.fail => c.onFailure
  | countOp.rst => c.reset

/-- Run a sequence of raw counter operations from the zero counters. -/
def countRun (l : List countOp) : counts :=
  l.foldl countStep counts.zero

/-- One step of the counters as exercised by the Gate: a completed admitted
call (`onRequest` followed by its `onSuccess` or `onFailure`), or a `reset`. -/
inductive callStep where
  | call (ok : Bool)
  | rst

/-- Apply one completed-call step. -/
def callStepApply (c : counts) : callStep → counts
  | callStep.call true => (c.onRequest).onSuccess
  | callStep.call false => (c.onRequest).onFailure
  | callStep.rst => c.reset

/-- Run a sequence of completed-call steps from the zero counters. -/
def callRun (l : List callStep) : counts :=
  l.foldl callStepApply counts.zero

@[simp] theorem counts.onRequest_requests (c : counts) :
    (c.onRequest).requests = (c.requests + 1) % u32Mod := rfl

@[simp] theorem counts.onRequest_totalSuccesses (c : counts) :
    (c.onRequest).totalSuccesses = c.totalSuccesses := rfl

@[simp] theorem counts.onRequest_totalFailures (c : counts) :
    (c.onRequest).totalFailures = c.totalFailures := rfl

@[simp] theorem counts.onRequest_consecutiveSuccesses (c : counts) :
    (c.onRequest).consecutiveSuccesses = c.consecutiveSuccesses := rfl

@[simp] theorem counts.onRequest_consecutiveFailures (c : counts) :
    (c.onRequest).consecutiveFailures = c.consecutiveFailures := rfl

@[simp] theorem counts.onSuccess_requests (c : counts) :
    (c.onSuccess).requests = c.requests := rfl

@[simp] theorem counts.onSuccess_totalSuccesses (c : counts) :
    (c.onSuccess).totalSuccesses = (c.totalSuccesses + 1) % u32Mod := rfl

@[simp] theorem counts.onSuccess_totalFailures (c : counts) :
    (c.onSuccess).totalFailures = c.totalFailures := rfl

@[simp] theorem counts.onSuccess_consecutiveSuccesses (c : counts) :
    (c.onSuccess).consecutiveSuccesses = (c.consecutiveSuccesses + 1) % u32Mod := rfl

@[simp] theorem counts.onSuccess_consecutiveFailures (c : counts) :
    (c.onSuccess).consecutiveFailures = 0 := rfl

@[simp] theorem counts.onFailure_requests (c : counts) :
    (c.onFailure).requests = c.requests := rfl

@[simp] theorem counts.onFailure_totalSuccesses (c : counts) :
    (c.onFailure).totalSuccesses = c.totalSuccesses := rfl

@[simp] theorem counts.onFailure_totalFailures (c : counts) :
    (c.onFailure).totalFailures = (c.totalFailures + 1) % u32Mod := rfl

@[simp] theorem counts.onFailure_consecutiveSuccesses (c : counts) :
    (c.onFailure).consecutiveSuccesses = 0 := rfl

@[simp] theorem counts.onFailure_consecutiveFailures (c : counts) :
    (c.onFailure).consecutiveFailures = (c.consecutiveFailures + 1) % u32Mod := rfl

@[simp] theorem counts.reset_eq_zero (c : counts) : c.reset = counts.zero := rfl

/-- C8: the textual names of the three states are exactly "closed" for
Closed, "half-open" for HalfOpen and "open" for Open, as returned by the
embedding of `State.String`. -/
theorem stateString_defined_states :
    stateString StateClosed = "closed" ∧
    stateString StateHalfOpen = "half-open" ∧
    stateString StateOpen = "open" := by
  decide

/-- C9: for every `State` value outside the three defined constants,
`State.String` does not fail but returns "unknown state: " followed by the
decimal rendering of the value. -/
theorem stateString_unknown_state (s : State)
    (h0 : s ≠ StateClosed) (h1 : s ≠ StateHalfOpen) (h2 : s ≠ StateOpen) :
    stateString s = "unknown state: " ++ toString s := by
  unfold stateString
  rw [if_neg h0, if_neg h1, if_neg h2]

/-- Witness for C9 at the concrete value `State(3)`. -/
theorem stateString_unknown_state_witness :
    (3 : State) ≠ StateClosed ∧ (3 : State) ≠ StateHalfOpen ∧
    (3 : State) ≠ StateOpen ∧
    stateString 3 = "unknown state: " ++ toString (3 : State) :=
  ⟨by decide, by decide, by decide,
    stateString_unknown_state 3 (by decide) (by decide) (by decide)⟩

/-- C4: for every counters value, `onSuccess` increments `totalSuccesses` and
`consecutiveSuccesses` by one (uint32 increment, i.e. modulo `2^32`) and sets
`consecutiveFailures` to zero, leaving `requests` and `totalFailures`
unchanged; `onFailure` increments `totalFailures` and `consecutiveFailures`
by one and sets `consecutiveSuccesses` to zero, leaving `requests` and
`totalSuccesses` unchanged. -/
theorem outcome_recording_field_effects (c : counts) :
    (c.onSuccess).totalSuccesses = (c.totalSuccesses + 1) % u32Mod ∧
    (c.onSuccess).consecutiveSuccesses = (c.consecutiveSuccesses + 1) % u32Mod ∧
    (c.onSuccess).consecutiveFailures = 0 ∧
    (c.onSuccess).requests = c.requests ∧
    (c.onSuccess).totalFailures = c.totalFailures ∧
    (c.onFailure).totalFailures = (c.totalFailures + 1) % u32Mod ∧
    (c.onFailure).consecutiveFailures = (c.consecutiveFailures + 1) % u32Mod ∧
    (c.onFailure).consecutiveSuccesses = 0 ∧
    (c.onFailure).requests = c.requests ∧
    (c.onFailure).totalSuccesses = c.totalSuccesses :=
  ⟨rfl, rfl, rfl, rfl, rfl, rfl, rfl, rfl, rfl, rfl⟩

/-- C10: all five counter fields are uint32, so every increment performed by
`onRequest`, `onSuccess` and `onFailure` is arithmetic modulo `2^32`; a
counter holding `2^32 - 1` wraps to 0 when incremented. -/
theorem counter_increments_wrap_modulo_u32 :
    (∀ c : counts, (c.onRequest).requests = (c.requests + 1) % u32Mod) ∧
    (counts.onRequest ⟨u32Mod - 1, 0, 0, 0, 0⟩).requests = 0 ∧
    (counts.onSuccess ⟨0, u32Mod - 1, 0, u32Mod - 1, 0⟩).totalSuccesses = 0 ∧
    (counts.onSuccess ⟨0, u32Mod - 1, 0, u32Mod - 1, 0⟩).consecutiveSuccesses = 0 ∧
    (counts.onFailure ⟨0, 0, u32Mod - 1, 0, u32Mod - 1⟩).totalFailures = 0 ∧
    (counts.onFailure ⟨0, 0, u32Mod - 1, 0, u32Mod - 1⟩).consecutiveFailures = 0 :=
  ⟨fun _ => rfl, by decide, by decide, by decide, by decide, by decide⟩

/-- C2 (code bug): `settings.validate` passes both duration fields to
`validation.Field` by value instead of by pointer, so ozzo-validation's
`ValidateStruct` returns the internal error `field #0 must be specified as a
pointer` for every settings value, valid durations included: validation
never succeeds, in particular not on the default settings. -/
theorem validate_always_fails :
    settings.validate defaultSettings =
      some ("field #0 must be specified as a pointer") ∧
    ∀ s : settings, (settings.validate s).isSome = true :=
  ⟨rfl, fun _ => rfl⟩

/-- C5: with no options supplied, the policy fields take exactly the
documented defaults: `maxHalfOpenRequests = 10`, `closedResetInterval = 5`
seconds, `openTimeOut = 10` seconds, `readyToTrip` true iff
`consecutiveFailures > 5`, `isSuccessful` true iff the error is nil, and
`onStateChange` unset. -/
theorem default_settings_documented :
    defaultSettings.maxHalfOpenRequests = 10 ∧
    defaultSettings.closedResetInterval = 5 * timeSecond ∧
    defaultSettings.openTimeOut = 10 * timeSecond ∧
    (∀ c : counts, defaultSettings.readyToTrip c = true ↔ 5 < c.consecutiveFailures) ∧
    (∀ e : Option String, defaultSettings.isSuccessful e = true ↔ e = none) ∧
    defaultSettings.onStateChange = none := by
  refine ⟨rfl, rfl, rfl, fun c => ?_, fun e => ?_, rfl⟩
  · simp [defaultSettings, defaultReadyToTrip]
  · simp [defaultSettings, defaultIsSuccessful, Option.isNone_iff_eq_none]

/-- C7: every configuration option is idempotent and mutates exactly one
policy field: applying an option twice equals applying it once, and the
result differs from the input in at most the option's own field. -/
theorem settings_options_idempotent_one_field
    (m : Nat) (d t : Int) (f : counts → Bool)
    (g : Option (String → State → State → Unit))
    (e : Option String → Bool) (s : settings) :
    (WithMaxHalfOpenRequests m (WithMaxHalfOpenRequests m s) = WithMaxHalfOpenRequests m s ∧
      (WithMaxHalfOpenRequests m s).closedResetInterval = s.closedResetInterval ∧
      (WithMaxHalfOpenRequests m s).openTimeOut = s.openTimeOut ∧
      (WithMaxHalfOpenRequests m s).readyToTrip = s.readyToTrip ∧
      (WithMaxHalfOpenRequests m s).onStateChange = s.onStateChange ∧
      (WithMaxHalfOpenRequests m s).isSuccessful = s.isSuccessful) ∧
    (WithClosedResetInterval d (WithClosedResetInterval d s) = WithClosedResetInterval d s ∧
      (WithClosedResetInterval d s).maxHalfOpenRequests = s.maxHalfOpenRequests ∧
      (WithClosedResetInterval d s).openTimeOut = s.openTimeOut ∧
      (WithClosedResetInterval d s).readyToTrip = s.readyToTrip ∧
      (WithClosedResetInterval d s).onStateChange = s.onStateChange ∧
      (WithClosedResetInterval d s).isSuccessful = s.isSuccessful) ∧
    (WithOpenTimeOut t (WithOpenTimeOut t s) = WithOpenTimeOut t s ∧
      (WithOpenTimeOut t s).maxHalfOpenRequests = s.maxHalfOpenRequests ∧
      (WithOpenTimeOut t s).closedResetInterval = s.closedResetInterval ∧
      (WithOpenTimeOut t s).readyToTrip = s.readyToTrip ∧
      (WithOpenTimeOut t s).onStateChange = s.onStateChange ∧
      (WithOpenTimeOut t s).isSuccessful = s.isSuccessful) ∧
    (WithReadyToTrip f (WithReadyToTrip f s) = WithReadyToTrip f s ∧
      (WithReadyToTrip f s).maxHalfOpenRequests = s.maxHalfOpenRequests ∧
      (WithReadyToTrip f s).closedResetInterval = s.closedResetInterval ∧
      (WithReadyToTrip f s).openTimeOut = s.openTimeOut ∧
      (WithReadyToTrip f s).onStateChange = s.onStateChange ∧
      (WithReadyToTrip f s).isSuccessful = s.isSuccessful) ∧
    (WithOnStateChange g (WithOnStateChange g s) = WithOnStateChange g s ∧
      (WithOnStateChange g s).maxHalfOpenRequests = s.maxHalfOpenRequests ∧
      (WithOnStateChange g s).closedResetInterval = s.closedResetInterval ∧
      (WithOnStateChange g s).openTimeOut = s.openTimeOut ∧
      (WithOnStateChange g s).readyToTrip = s.readyToTrip ∧
      (WithOnStateChange g s).isSuccessful = s.isSuccessful) ∧
    (WithIsSuccessful e (WithIsSuccessful e s) = WithIsSuccessful e s ∧
      (WithIsSuccessful e s).maxHalfOpenRequests = s.maxHalfOpenRequests ∧
      (WithIsSuccessful e s).closedResetInterval = s.closedResetInterval ∧
      (WithIsSuccessful e s).openTimeOut = s.openTimeOut ∧
      (WithIsSuccessful e s).readyToTrip = s.readyToTrip ∧
      (WithIsSuccessful e s).onStateChange = s.onStateChange) :=
  ⟨⟨rfl, rfl, rfl, rfl, rfl, rfl⟩, ⟨rfl, rfl, rfl, rfl, rfl, rfl⟩,
    ⟨rfl, rfl, rfl, rfl, rfl, rfl⟩, ⟨rfl, rfl, rfl, rfl, rfl, rfl⟩,
    ⟨rfl, rfl, rfl, rfl, rfl, rfl⟩, ⟨rfl, rfl, rfl, rfl, rfl, rfl⟩⟩

/-- C3 as stated is false: the raw counter operation `onRequest` alone,
applied once to the zero counters, makes `requests = 1` while
`totalSuccesses + totalFailures = 0`. -/
theorem counters_sum_invariant_cex :
    ((countRun [countOp.req]).totalSuccesses + (countRun [countOp.req]).totalFailures
        = (countRun [countOp.req]).requests) = False :=
  eq_false (by decide)

/-- Invariant of the counters under completed-call steps. -/
def countsInv (c : counts) : Prop :=
  c.totalSuccesses < u32Mod ∧ c.totalFailures < u32Mod ∧ c.requests < u32Mod ∧
  (c.totalSuccesses + c.totalFailures) % u32Mod = c.requests ∧
  (c.consecutiveSuccesses = 0 ∨ c.consecutiveFailures = 0)

theorem countsInv_zero : countsInv counts.zero :=
  ⟨by decide, by decide, by decide, by decide, Or.inl rfl⟩

theorem countsInv_step (c : counts) (s : callStep) (h : countsInv c) :
    countsInv (callStepApply c s) := by
  obtain ⟨h1, h2, h3, h4, h5⟩ := h
  cases s with
  | rst => exact countsInv_zero
  | call ok =>
    cases ok with
    | true =>
      refine ⟨?_, ?_, ?_, ?_, Or.inr rfl⟩ <;>
        simp only [callStepApply, counts.onSuccess_totalSuccesses,
          counts.onSuccess_totalFailures, counts.onSuccess_requests,
          counts.onRequest_totalSuccesses, counts.onRequest_totalFailures,
          counts.onRequest_requests, u32Mod] at * <;> omega
    | false =>
      refine ⟨?_, ?_, ?_, ?_, Or.inl rfl⟩ <;>
        simp only [callStepApply, counts.onFailure_totalSuccesses,
          counts.onFailure_totalFailures, counts.onFailure_requests,
          counts.onRequest_totalSuccesses, counts.onRequest_totalFailures,
          counts.onRequest_requests, u32Mod] at * <;> omega

theorem countsInv_run (l : List callStep) :
    ∀ c : counts, countsInv c → countsInv (l.foldl callStepApply c) := by
  induction l with
  | nil => intro c h; exact h
  | cons s t ih => intro c h; exact ih _ (countsInv_step c s h)

/-- C3 amended: for every sequence of completed-call steps (each an
`onRequest` paired with its `onSuccess` or `onFailure`) and resets, starting
from the zero counters, `(totalSuccesses + totalFailures) % 2^32 = requests`
holds, at most one of `consecutiveSuccesses` and `consecutiveFailures` is
nonzero, and both are zero immediately after a reset. -/
theorem counters_invariant_completed_calls (l : List callStep) :
    ((callRun l).totalSuccesses + (callRun l).totalFailures) % u32Mod
      = (callRun l).requests ∧
    ((callRun l).consecutiveSuccesses = 0 ∨ (callRun l).consecutiveFailures = 0) ∧
    (∀ c : counts, (c.reset).consecutiveSuccesses = 0 ∧ (c.reset).consecutiveFailures = 0) := by
  have h := countsInv_run l counts.zero countsInv_zero
  exact ⟨h.2.2.2.1, h.2.2.2.2, fun _ => ⟨rfl, rfl⟩⟩

/-- Iterate `n` admitted-and-failed calls at a fixed instant. -/
def failCalls (p : settings) (now : Int) : Nat → breaker → breaker
  | 0, b => b
  | n + 1, b => failCalls p now n (failCall p now b)

/-- C1 as stated is false: under the default policy, after exactly 5
consecutive failures recorded in Closed, `readyToTrip` on the resulting
counters is `false` (the default condition is `consecutiveFailures > 5`),
the 6th Admit still admits and the state still reads Closed. -/
theorem default_five_failures_do_not_trip_cex :
    defaultSettings.readyToTrip
      (failCalls defaultSettings 0 5 (newBreaker defaultSettings 0)).cnts = false ∧
    (failCalls defaultSettings 0 5 (newBreaker defaultSettings 0)).st = StateClosed ∧
    (gateAdmit defaultSettings 0 (failCalls defaultSettings 0 5 (newBreaker defaultSettings 0))).1
      = true ∧
    (gateAdmit defaultSettings 0 (failCalls defaultSettings 0 5 (newBreaker defaultSettings 0))).2.st
      = StateClosed := by
  decide

/-- C1 amended: under the default policy, after exactly 6 consecutive
failures recorded in the Closed state the trip condition is satisfied:
`readyToTrip` on the resulting counters returns `true`, the breaker has
tripped, and the 7th Admit rejects with the state reading Open. -/
theorem default_six_failures_trip :
    defaultSettings.readyToTrip
      (failCalls defaultSettings 0 6 (newBreaker defaultSettings 0)).cnts = true ∧
    (failCalls defaultSettings 0 6 (newBreaker defaultSettings 0)).st = StateOpen ∧
    (gateAdmit defaultSettings 0 (failCalls defaultSettings 0 6 (newBreaker defaultSettings 0))).1
      = false ∧
    (gateAdmit defaultSettings 0 (failCalls defaultSettings 0 6 (newBreaker defaultSettings 0))).2.st
      = StateOpen := by
  decide

theorem effMax_pos (p : settings) : 1 ≤ effMax p := by
  unfold effMax
  split <;> omega

theorem effMax_lt_u32Mod (p : settings) (hwf : p.maxHalfOpenRequests < u32Mod) :
    effMax p < u32Mod := by
  unfold effMax u32Mod at *
  split <;> omega

/-- The invariant behind the half-open bound: the admitted-request counter is
a uint32 value and, whenever the breaker is HalfOpen, it is at most the
effective probe budget. -/
def winv (p : settings) (b : breaker) : Prop :=
  b.cnts.requests < u32Mod ∧ (b.st = StateHalfOpen → b.cnts.requests ≤ effMax p)

theorem u32Mod_pos : 0 < u32Mod := by decide

theorem winv_closedLazyReset (p : settings) (now : Int) (b : breaker)
    (h : winv p b) : winv p (closedLazyReset p now b) := by
  unfold closedLazyReset
  split
  · exact ⟨u32Mod_pos, fun _ => Nat.zero_le _⟩
  · exact h

theorem winv_openToHalfOpen (p : settings) (now : Int) (b1 : breaker)
    (h : winv p b1) : winv p (openToHalfOpen now b1) := by
  unfold openToHalfOpen
  split
  · exact ⟨u32Mod_pos, fun _ => Nat.zero_le _⟩
  · exact h

theorem winv_admitHalfOpen (p : settings) (b2 : breaker)
    (hwf : p.maxHalfOpenRequests < u32Mod) (h : winv p b2) :
    winv p (admitHalfOpen p b2).2 := by
  unfold admitHalfOpen
  split
  · split
    · rename_i hho hlt
      have hmax : effMax p < u32Mod := effMax_lt_u32Mod p hwf
      have hsucc : b2.cnts.requests + 1 ≤ effMax p := hlt
      have hlt32 : b2.cnts.requests + 1 < u32Mod := lt_of_le_of_lt hsucc hmax
      constructor
      · simpa using Nat.mod_lt _ u32Mod_pos
      · intro _
        simpa [Nat.mod_eq_of_lt hlt32] using hsucc
    · exact h
  · exact h

theorem winv_admitInner (p : settings) (now : Int) (b1 : breaker)
    (hwf : p.maxHalfOpenRequests < u32Mod) (h : winv p b1) :
    winv p (admitInner p now b1).2 := by
  unfold admitInner
  split
  · rename_i hcl
    constructor
    · simpa using Nat.mod_lt _ u32Mod_pos
    · intro hho
      rw [show ({ b1 with cnts := b1.cnts.onRequest } : breaker).st = b1.st from rfl] at hho
      rw [hcl] at hho
      exact absurd hho (by decide)
  · exact winv_admitHalfOpen p _ hwf (winv_openToHalfOpen p now b1 h)

theorem winv_recordOutcome (p : settings) (now : Int) (ok : Bool) (b1 : breaker)
    (h : winv p b1) : winv p (recordOutcome p now ok b1) := by
  unfold recordOutcome
  split
  · split
    · exact ⟨u32Mod_pos, fun _ => Nat.zero_le _⟩
    · exact h
  · split
    · exact ⟨u32Mod_pos, fun _ => Nat.zero_le _⟩
    · split
      · refine ⟨h.1, fun hho => ?_⟩
        have h21 : StateOpen = StateHalfOpen := hho
        exact absurd h21 (by decide)
      · exact h

theorem winv_gateStep (p : settings) (b : breaker) (op : gateOp)
    (hwf : p.maxHalfOpenRequests < u32Mod) (h : winv p b) :
    winv p (gateStep p b op) := by
  cases op with
  | attemptAt now =>
    exact winv_admitInner p now _ hwf (winv_closedLazyReset p now b h)
  | recordAt now ok =>
    exact winv_recordOutcome p now ok _ (winv_closedLazyReset p now b h)

theorem winv_gateRun (p : settings) (l : List gateOp)
    (hwf : p.maxHalfOpenRequests < u32Mod) :
    ∀ b : breaker, winv p b → winv p (gateRun p b l) := by
  induction l with
  | nil => intro b h; exact h
  | cons op t ih =>
    intro b h
    exact ih _ (winv_gateStep p b op hwf h)

/-- C6 as stated is false for a zero probe budget: `maxHalfOpenRequests = 0`
is treated as "exactly one", so a single admission in HalfOpen already
exceeds the configured value 0. -/
def zeroBudget : settings := WithMaxHalfOpenRequests 0 defaultSettings

/-- A linearized run that trips the default breaker with six failures and
then, after the open timeout, admits one probe in HalfOpen. -/
def halfOpenScenario : List gateOp :=
  [gateOp.attemptAt 0, gateOp.recordAt 0 false,
   gateOp.attemptAt 0, gateOp.recordAt 0 false,
   gateOp.attemptAt 0, gateOp.recordAt 0 false,
   gateOp.attemptAt 0, gateOp.recordAt 0 false,
   gateOp.attemptAt 0, gateOp.recordAt 0 false,
   gateOp.attemptAt 0, gateOp.recordAt 0 false,
   gateOp.attemptAt 10000000000]

/-- Counterexample to C6 as stated: with `maxHalfOpenRequests = 0`, the run
`halfOpenScenario` leaves the breaker HalfOpen having admitted one call in
the probe window, strictly more than `maxHalfOpenRequests`. -/
theorem half_open_zero_budget_cex :
    zeroBudget.maxHalfOpenRequests = 0 ∧
    (gateRun zeroBudget (newBreaker zeroBudget 0) halfOpenScenario).st = StateHalfOpen ∧
    zeroBudget.maxHalfOpenRequests
      < (gateRun zeroBudget (newBreaker zeroBudget 0) halfOpenScenario).cnts.requests := by
  decide

/-- C6 amended: along every linearized sequence of Admit/Record operations
(the lock serializes concurrent callers), whenever the breaker is HalfOpen
the number of calls admitted in the current probe window never exceeds the
effective budget `effMax`, i.e. `maxHalfOpenRequests` with 0 treated as
exactly one. -/
theorem half_open_admissions_bounded (p : settings) (t0 : Int) (l : List gateOp)
    (hwf : p.maxHalfOpenRequests < u32Mod)
    (hho : (gateRun p (newBreaker p t0) l).st = StateHalfOpen) :
    (gateRun p (newBreaker p t0) l).cnts.requests ≤ effMax p := by
  have h0 : winv p (newBreaker p t0) := ⟨u32Mod_pos, fun _ => Nat.zero_le _⟩
  exact (winv_gateRun p l hwf _ h0).2 hho

/-- Witness for the half-open bound on a concrete run of the default
breaker that ends in HalfOpen with one admitted probe. -/
theorem half_open_admissions_bounded_witness :
    defaultSettings.maxHalfOpenRequests < u32Mod ∧
    (gateRun defaultSettings (newBreaker defaultSettings 0) halfOpenScenario).st
      = StateHalfOpen ∧
    (gateRun defaultSettings (newBreaker defaultSettings 0) halfOpenScenario).cnts.requests
      ≤ effMax defaultSettings :=
  ⟨by decide, by decide,
    half_open_admissions_bounded defaultSettings 0 halfOpenScenario (by decide) (by decide)⟩
